import Mathlib

/-! Verification of the trustification advisory gateway (vexination API server,
src/vexination/api/src/server.rs) and the bombastic package search field model
(src/bombastic/index/src/search.rs), as a shallow embedding in Lean. -/

namespace Trustification

/-- Byte strings are modelled as lists of natural numbers. -/
abbrev Bytes := List Nat

/-- Stored object, mirroring the trustification_storage Object as the gateway
uses it: key, metadata map, payload bytes, and the compressed flag that is
persisted alongside the bytes. -/
structure Object where
  key : String
  metadata : List (String × String)
  data : Bytes
  compressed : Bool
deriving DecidableEq, Repr

/-- Constructor mirroring the call Object.new(key, metadata, data, compressed)
at server.rs line 115. -/
def Object.new (key : String) (metadata : List (String × String))
    (data : Bytes) (compressed : Bool) : Object :=
  ⟨key, metadata, data, compressed⟩

/-- HTTP response body: empty (finish or a bare into), raw bytes, or a text
message. -/
inductive Body where
  | empty
  | bytes (b : Bytes)
  | text (s : String)
deriving DecidableEq, Repr

/-- HTTP response as a status code plus a body. -/
structure HttpResponse where
  status : Nat
  body : Body
deriving DecidableEq, Repr

/-- Compression codec interface: the zstd stream copy_encode and copy_decode
calls, viewed as fallible pure byte transformations. The gateway code treats
both as external calls that either produce bytes or fail. -/
structure Codec where
  encode : Bytes → Except String Bytes
  decode : Bytes → Except String Bytes

/-- Shallow embedding of fetch_object (server.rs lines 41 to 60): call
storage.get on the key; on success branch on the stored compressed flag and
decode when it is set; any get error yields a 404 with an empty body. -/
def fetch_object (codec : Codec) (storage : String → Except String Object)
    (key : String) : HttpResponse :=
  match storage key with
  | .ok obj =>
    if obj.compressed then
      match codec.decode obj.data with
      | .ok out => ⟨200, .bytes out⟩
      | .error _ => ⟨500, .text "Unable to decode object"⟩
    else
      ⟨200, .bytes obj.data⟩
  | .error _ => ⟨404, .empty⟩

/-- Query parameters of the GET handler (server.rs lines 66 to 70). -/
structure QueryParams where
  cve : Option String
  advisory : Option String
deriving DecidableEq, Repr

/-- Shallow embedding of query_vex (server.rs lines 72 to 87): the advisory
parameter wins, a cve parameter alone is rejected as unsupported, and missing
both is rejected; the read-locked storage handle is abstracted as the get
function it provides. -/
def query_vex (codec : Codec) (storage : String → Except String Object)
    (params : QueryParams) : HttpResponse :=
  match params.advisory with
  | some advisory => fetch_object codec storage advisory
  | none =>
    match params.cve with
    | some _ => ⟨400, .text "CVE lookup is not yet supported"⟩
    | none => ⟨400, .text "Missing valid advisory or CVE"⟩

/-- Tracking section of a CSAF document, as far as the gateway reads it. -/
structure Tracking where
  id : String
deriving DecidableEq, Repr

/-- Document section of a CSAF document, as far as the gateway reads it. -/
structure Document where
  tracking : Tracking
deriving DecidableEq, Repr

/-- Payload shape of csaf::Csaf as far as publish_vex reads it: the embedded
document tracking identifier (server.rs line 100). -/
structure Csaf where
  document : Document
deriving DecidableEq, Repr

/-- Publish parameters of the POST handler (server.rs lines 89 to 92). -/
structure PublishParams where
  advisory : Option String
deriving DecidableEq, Repr

/-- Store mutation issued by a handler; the list of these issued by a request
records how many store calls the request made. -/
inductive StoreOp where
  | put (key : String) (value : Object)
deriving DecidableEq, Repr

/-- Compression step of publish_vex (server.rs lines 109 to 113): the encoded
bytes with flag true when copy_encode succeeds, the raw bytes with flag false
when it fails. -/
def storedPair (codec : Codec) (data : Bytes) : Bytes × Bool :=
  match codec.encode data with
  | .ok out => (out, true)
  | .error _ => (data, false)

/-- Object as persisted by publish_vex for a given advisory id and payload
(server.rs line 115): empty metadata, bytes and flag from the compression
step. -/
def storedObject (codec : Codec) (advisory : String) (data : Bytes) : Object :=
  Object.new advisory [] (storedPair codec data).1 (storedPair codec data).2

/-- Tail of publish_vex once the advisory id is resolved (server.rs lines 108
to 127): compress, build the object, put it under the id, and report either
201 with the persisted size or 500 with the store error detail. The
collaborator response to the put is supplied by putResult; the returned list
records the store calls issued. -/
def publishResolved (codec : Codec) (putResult : String → Object → Except String Unit)
    (advisory : String) (data : Bytes) : HttpResponse × List StoreOp :=
  match putResult advisory (storedObject codec advisory data) with
  | .ok _ =>
    (⟨201, .text ("VEX of size " ++ toString (storedObject codec advisory data).data.length
        ++ " stored successfully")⟩,
      [.put advisory (storedObject codec advisory data)])
  | .error e =>
    (⟨500, .text ("Error storing VEX: " ++ e)⟩,
      [.put advisory (storedObject codec advisory data)])

/-- Shallow embedding of publish_vex (server.rs lines 94 to 127): resolve the
advisory id, using the explicit parameter verbatim when present, otherwise the
tracking id of the parsed CSAF body, rejecting with a bare 400 and issuing no
store call when that parse fails; then compress and store. The external JSON
parse is supplied as the parse argument. -/
def publish_vex (codec : Codec) (parse : Bytes → Except String Csaf)
    (putResult : String → Object → Except String Unit)
    (params : PublishParams) (data : Bytes) : HttpResponse × List StoreOp :=
  match params.advisory with
  | some advisory => publishResolved codec putResult advisory data
  | none =>
    match parse data with
    | .ok c => publishResolved codec putResult c.document.tracking.id data
    | .error _ => (⟨400, .empty⟩, [])

/-- Functional model of the object store contents: at most one object per
key, a write with an existing key overwrites. -/
def Store := String → Option Object

/-- Store read: get(key) succeeds with the stored object, and fails when the
key is absent. -/
def Store.get (s : Store) : String → Except String Object := fun key =>
  match s key with
  | some o => .ok o
  | none => .error "NoSuchKey"

/-- Store write: put(key, value) overwrites the object under the key. -/
def Store.put (s : Store) (key : String) (value : Object) : Store :=
  fun k => if k = key then some value else s k

/-- Modelled from the spec: run-length encoding used inside the codec model
standing in for the zstd crate, which is not part of this repository. Adjacent
equal bytes become one count and value pair. -/
def rleEncode : Bytes → List (Nat × Nat)
  | [] => []
  | b :: bs =>
    match rleEncode bs with
    | [] => [(1, b)]
    | (n, v) :: rest => if v = b then (n + 1, b) :: rest else (1, b) :: (n, v) :: rest

/-- Modelled from the spec: inverse of the run-length encoding, expanding each
count and value pair back into a run of bytes. -/
def rleDecode : List (Nat × Nat) → Bytes
  | [] => []
  | (n, v) :: rest => List.replicate n v ++ rleDecode rest

/-- Modelled from the spec: serialization of the run list into the frame
body, alternating counts and values. -/
def flattenPairs : List (Nat × Nat) → Bytes
  | [] => []
  | (n, v) :: rest => n :: v :: flattenPairs rest

/-- Modelled from the spec: parse of the frame body back into the run list;
fails on a malformed body of odd length. -/
def unflattenPairs : Bytes → Option (List (Nat × Nat))
  | [] => some []
  | [_] => none
  | n :: v :: rest => (unflattenPairs rest).map (fun l => (n, v) :: l)

/-- Modelled from the spec: the encode half of the zstd codec (the zstd crate
is not part of this repository). Section 4.2 of the spec requires a
deterministic, reversible, frame-based transformation tried at a fixed effort
level and never mutating its input; the model frames a run-length encoding of
the payload behind a one-byte header recording the effort level. -/
def copy_encode (level : Nat) (data : Bytes) : Except String Bytes :=
  .ok (level :: flattenPairs (rleEncode data))

/-- Modelled from the spec: the decode half of the zstd codec, reversing
copy_encode; it fully materializes its output or fails on a corrupt frame,
and never emits partial data. -/
def copy_decode (frame : Bytes) : Except String Bytes :=
  match frame with
  | [] => .error "unknown frame descriptor"
  | _ :: rest =>
    match unflattenPairs rest with
    | some pairs => .ok (rleDecode pairs)
    | none => .error "corrupt frame"

/-- Modelled from the spec: the codec instance used at the gateway call
sites, encoding at the fixed effort level 3 passed at server.rs line 110. -/
def zstdCodec : Codec :=
  ⟨copy_encode 3, copy_decode⟩

/-- Events of interest for the lock discipline: lock acquisition and release
on the shared storage handle, store calls, and codec work. -/
inductive Event where
  | acquireRead
  | releaseRead
  | acquireWrite
  | releaseWrite
  | storeGet
  | storePut
  | encode
  | decode
deriving DecidableEq, Repr

/-- Event order of query_vex on the advisory path (server.rs lines 85 to 87
and 41 to 60): the read guard is taken at line 85, storage.get runs inside
fetch_object, copy_decode runs when the object came back compressed, and the
guard is dropped only when the handler returns, so any decode happens while
the guard is still held. -/
def queryTrace (getOk : Bool) (compressed : Bool) : List Event :=
  [Event.acquireRead, Event.storeGet]
    ++ (if getOk && compressed then [Event.decode] else [])
    ++ [Event.releaseRead]

/-- Event order of publish_vex after id resolution (server.rs lines 108 to
127): the write guard is taken at line 108, copy_encode runs at line 110, the
put at line 116, and the guard is dropped when the handler returns. -/
def publishTrace : List Event :=
  [Event.acquireWrite, Event.encode, Event.storePut, Event.releaseWrite]

/-- Free-text payload carried by the searchable fields (sikula Primary). -/
abbrev Primary := String

/-- Shallow embedding of the Packages search field enum
(src/bombastic/index/src/search.rs lines 4 to 34). -/
inductive Packages where
  | Dependent (value : Primary)
  | Purl (value : Primary)
  | «Type» (value : Primary)
  | Namespace (value : Primary)
  | Name (value : Primary)
  | Version (value : Primary)
  | Description (value : Primary)
  | Digest (value : Primary)
  | License (value : Primary)
  | Qualifier (value : Primary)
  | Application
  | Library
  | Framework
  | Container
  | OperatingSystem
  | Device
  | Firmware
  | File
deriving DecidableEq, Repr

/-- Default-matchable designation of each Packages variant: true exactly on
the ten variants annotated with the search default attribute in the source,
false on the eight payload-free marker variants. -/
def Packages.searchDefault : Packages → Bool
  | .Dependent _ => true
  | .Purl _ => true
  | .«Type» _ => true
  | .Namespace _ => true
  | .Name _ => true
  | .Version _ => true
  | .Description _ => true
  | .Digest _ => true
  | .License _ => true
  | .Qualifier _ => true
  | .Application => false
  | .Library => false
  | .Framework => false
  | .Container => false
  | .OperatingSystem => false
  | .Device => false
  | .Firmware => false
  | .File => false

theorem storedPair_ok (codec : Codec) (data out : Bytes)
    (h : codec.encode data = .ok out) : storedPair codec data = (out, true) := by
  simp [storedPair, h]

theorem storedPair_error (codec : Codec) (data : Bytes) (e : String)
    (h : codec.encode data = .error e) : storedPair codec data = (data, false) := by
  simp [storedPair, h]

theorem publishResolved_ops (codec : Codec)
    (putResult : String → Object → Except String Unit) (advisory : String) (data : Bytes) :
    (publishResolved codec putResult advisory data).2
      = [.put advisory (storedObject codec advisory data)] := by
  cases h : putResult advisory (storedObject codec advisory data) <;>
    simp [publishResolved, h]

theorem Store.get_put (s : Store) (key : String) (value : Object) :
    (s.put key value).get key = .ok value := by
  simp [Store.get, Store.put]

theorem unflattenPairs_flattenPairs (l : List (Nat × Nat)) :
    unflattenPairs (flattenPairs l) = some l := by
  induction l with
  | nil => rfl
  | cons p rest ih =>
    obtain ⟨n, v⟩ := p
    simp [flattenPairs, unflattenPairs, ih]

theorem rleDecode_rleEncode (bs : Bytes) : rleDecode (rleEncode bs) = bs := by
  induction bs with
  | nil => rfl
  | cons b bs ih =>
    rw [rleEncode]
    cases h : rleEncode bs with
    | nil =>
      rw [h] at ih
      simp [rleDecode] at ih
      simp [rleDecode, ← ih]
    | cons p rest =>
      obtain ⟨n, v⟩ := p
      rw [h] at ih
      by_cases hv : v = b
      · subst hv
        simp only [if_pos rfl, rleDecode, List.replicate_succ, List.cons_append]
        rw [← rleDecode, ih]
      · simp only [rleDecode] at ih
        simp only [if_neg hv, rleDecode, List.replicate, List.nil_append,
          List.singleton_append]
        rw [ih]

theorem copy_decode_copy_encode (level : Nat) (data out : Bytes)
    (h : copy_encode level data = .ok out) : copy_decode out = .ok data := by
  have hout : out = level :: flattenPairs (rleEncode data) := by
    simpa [copy_encode] using h.symm
  subst hout
  simp [copy_decode, unflattenPairs_flattenPairs, rleDecode_rleEncode]

theorem zstdCodec_roundtrip (b out : Bytes) (h : zstdCodec.encode b = .ok out) :
    zstdCodec.decode out = .ok b :=
  copy_decode_copy_encode 3 b out h

theorem fetch_storedObject (codec : Codec)
    (hrt : ∀ b out, codec.encode b = .ok out → codec.decode out = .ok b)
    (storage : String → Except String Object) (key advisory : String) (data : Bytes)
    (hget : storage key = .ok (storedObject codec advisory data)) :
    fetch_object codec storage key = ⟨200, .bytes data⟩ := by
  cases h : codec.encode data with
  | ok out =>
    simp [fetch_object, hget, storedObject, Object.new, storedPair_ok codec data out h,
      hrt data out h]
  | error e =>
    simp [fetch_object, hget, storedObject, Object.new, storedPair_error codec data e h]

/-- C8: for every byte sequence B, the fixed-effort-level encode used on the
publish path succeeds, and running the lookup-path decode on its output
yields exactly B. -/
theorem C8_codec_roundtrip (b : Bytes) :
    ∃ out, zstdCodec.encode b = .ok out ∧ zstdCodec.decode out = .ok b :=
  ⟨3 :: flattenPairs (rleEncode b), rfl,
    copy_decode_copy_encode 3 b (3 :: flattenPairs (rleEncode b)) rfl⟩

/-- C9: the package search field vocabulary is closed and exhaustive with
exactly the eighteen listed variants: ten free-text variants carrying a
string value, each default-matchable, and eight payload-free marker variants
that are not default-matchable. -/
theorem C9_packages_vocabulary :
    (∀ p : Packages,
      (∃ s, p = .Dependent s) ∨ (∃ s, p = .Purl s) ∨ (∃ s, p = .«Type» s)
      ∨ (∃ s, p = .Namespace s) ∨ (∃ s, p = .Name s) ∨ (∃ s, p = .Version s)
      ∨ (∃ s, p = .Description s) ∨ (∃ s, p = .Digest s) ∨ (∃ s, p = .License s)
      ∨ (∃ s, p = .Qualifier s)
      ∨ p = .Application ∨ p = .Library ∨ p = .Framework ∨ p = .Container
      ∨ p = .OperatingSystem ∨ p = .Device ∨ p = .Firmware ∨ p = .File)
    ∧ (∀ s : Primary,
      Packages.searchDefault (.Dependent s) = true
      ∧ Packages.searchDefault (.Purl s) = true
      ∧ Packages.searchDefault (.«Type» s) = true
      ∧ Packages.searchDefault (.Namespace s) = true
      ∧ Packages.searchDefault (.Name s) = true
      ∧ Packages.searchDefault (.Version s) = true
      ∧ Packages.searchDefault (.Description s) = true
      ∧ Packages.searchDefault (.Digest s) = true
      ∧ Packages.searchDefault (.License s) = true
      ∧ Packages.searchDefault (.Qualifier s) = true)
    ∧ (Packages.searchDefault .Application = false
      ∧ Packages.searchDefault .Library = false
      ∧ Packages.searchDefault .Framework = false
      ∧ Packages.searchDefault .Container = false
      ∧ Packages.searchDefault .OperatingSystem = false
      ∧ Packages.searchDefault .Device = false
      ∧ Packages.searchDefault .Firmware = false
      ∧ Packages.searchDefault .File = false) := by
  refine ⟨?_, ?_, ?_⟩
  · intro p
    cases p with
    | Dependent s => exact Or.inl ⟨s, rfl⟩
    | Purl s => exact Or.inr (Or.inl ⟨s, rfl⟩)
    | «Type» s => exact Or.inr (Or.inr (Or.inl ⟨s, rfl⟩))
    | Namespace s => exact Or.inr (Or.inr (Or.inr (Or.inl ⟨s, rfl⟩)))
    | Name s => exact Or.inr (Or.inr (Or.inr (Or.inr (Or.inl ⟨s, rfl⟩))))
    | Version s => exact Or.inr (Or.inr (Or.inr (Or.inr (Or.inr (Or.inl ⟨s, rfl⟩)))))
    | Description s =>
      exact Or.inr (Or.inr (Or.inr (Or.inr (Or.inr (Or.inr (Or.inl ⟨s, rfl⟩))))))
    | Digest s =>
      exact Or.inr (Or.inr (Or.inr (Or.inr (Or.inr (Or.inr (Or.inr (Or.inl ⟨s, rfl⟩)))))))
    | License s =>
      exact Or.inr (Or.inr (Or.inr (Or.inr (Or.inr (Or.inr (Or.inr (Or.inr
        (Or.inl ⟨s, rfl⟩))))))))
    | Qualifier s =>
      exact Or.inr (Or.inr (Or.inr (Or.inr (Or.inr (Or.inr (Or.inr (Or.inr (Or.inr
        (Or.inl ⟨s, rfl⟩)))))))))
    | Application =>
      exact Or.inr (Or.inr (Or.inr (Or.inr (Or.inr (Or.inr (Or.inr (Or.inr (Or.inr
        (Or.inr (Or.inl rfl))))))))))
    | Library =>
      exact Or.inr (Or.inr (Or.inr (Or.inr (Or.inr (Or.inr (Or.inr (Or.inr (Or.inr
        (Or.inr (Or.inr (Or.inl rfl)))))))))))
    | Framework =>
      exact Or.inr (Or.inr (Or.inr (Or.inr (Or.inr (Or.inr (Or.inr (Or.inr (Or.inr
        (Or.inr (Or.inr (Or.inr (Or.inl rfl))))))))))))
    | Container =>
      exact Or.inr (Or.inr (Or.inr (Or.inr (Or.inr (Or.inr (Or.inr (Or.inr (Or.inr
        (Or.inr (Or.inr (Or.inr (Or.inr (Or.inl rfl)))))))))))))
    | OperatingSystem =>
      exact Or.inr (Or.inr (Or.inr (Or.inr (Or.inr (Or.inr (Or.inr (Or.inr (Or.inr
        (Or.inr (Or.inr (Or.inr (Or.inr (Or.inr (Or.inl rfl))))))))))))))
    | Device =>
      exact Or.inr (Or.inr (Or.inr (Or.inr (Or.inr (Or.inr (Or.inr (Or.inr (Or.inr
        (Or.inr (Or.inr (Or.inr (Or.inr (Or.inr (Or.inr (Or.inl rfl)))))))))))))))
    | Firmware =>
      exact Or.inr (Or.inr (Or.inr (Or.inr (Or.inr (Or.inr (Or.inr (Or.inr (Or.inr
        (Or.inr (Or.inr (Or.inr (Or.inr (Or.inr (Or.inr (Or.inr (Or.inl rfl))))))))))))))))
    | File =>
      exact Or.inr (Or.inr (Or.inr (Or.inr (Or.inr (Or.inr (Or.inr (Or.inr (Or.inr
        (Or.inr (Or.inr (Or.inr (Or.inr (Or.inr (Or.inr (Or.inr (Or.inr rfl))))))))))))))))
  · intro s
    exact ⟨rfl, rfl, rfl, rfl, rfl, rfl, rfl, rfl, rfl, rfl⟩
  · exact ⟨rfl, rfl, rfl, rfl, rfl, rfl, rfl, rfl⟩

/-- C10: any error from the store get call, whatever its detail, produces the
same 404 response with an empty body; store-level read failures are
indistinguishable from not-found at the public interface and never surface
as an internal-failure status. -/
theorem C10_get_error_uniform_not_found (codec : Codec)
    (storage : String → Except String Object) (key e : String)
    (h : storage key = .error e) :
    fetch_object codec storage key = ⟨404, Body.empty⟩ := by
  simp [fetch_object, h]

/-- Witness for C10: a collaborator read failure with a non-absence detail
still yields the 404 with an empty body. -/
theorem C10_get_error_uniform_not_found_witness :
    fetch_object zstdCodec (fun _ => Except.error "ConnectionReset") "ADV-1"
      = ⟨404, Body.empty⟩ :=
  C10_get_error_uniform_not_found zstdCodec (fun _ => Except.error "ConnectionReset")
    "ADV-1" "ConnectionReset" rfl

/-- Counterexample to C5 as stated: in the lookup trace the decode happens
strictly before the read lock is released, and in the publish trace the
exclusive write lock is acquired strictly before the encode runs — the
opposite of the claimed ordering on both paths. -/
theorem C5_counterexample :
    Event.decode ∈ queryTrace true true
    ∧ (queryTrace true true).indexOf Event.decode
        < (queryTrace true true).indexOf Event.releaseRead
    ∧ Event.encode ∈ publishTrace
    ∧ publishTrace.indexOf Event.acquireWrite < publishTrace.indexOf Event.encode := by
  decide

/-- C5 amended: in the publish trace the write lock is acquired before the
encode, which runs before the put, which precedes the lock release; in every
lookup trace in which a decode occurs, the decode runs after the store get
has returned its data but before the read lock is released — the lock is
held across the codec work, not only the store call. -/
theorem C5_lock_ordering :
    (publishTrace.indexOf Event.acquireWrite < publishTrace.indexOf Event.encode
      ∧ publishTrace.indexOf Event.encode < publishTrace.indexOf Event.storePut
      ∧ publishTrace.indexOf Event.storePut < publishTrace.indexOf Event.releaseWrite)
    ∧ (∀ getOk compressed, Event.decode ∈ queryTrace getOk compressed →
        (queryTrace getOk compressed).indexOf Event.storeGet
            < (queryTrace getOk compressed).indexOf Event.decode
          ∧ (queryTrace getOk compressed).indexOf Event.decode
            < (queryTrace getOk compressed).indexOf Event.releaseRead) := by
  decide

/-- Witness for the amended C5 at the trace of a lookup that retrieved a
compressed object. -/
theorem C5_lock_ordering_witness :
    (queryTrace true true).indexOf Event.storeGet
        < (queryTrace true true).indexOf Event.decode
      ∧ (queryTrace true true).indexOf Event.decode
        < (queryTrace true true).indexOf Event.releaseRead :=
  C5_lock_ordering.2 true true (by decide)

theorem publishResolved_obj_eq (codec : Codec)
    (putResult : String → Object → Except String Unit) (a : String) (data : Bytes)
    (resp : HttpResponse) (key : String) (obj : Object)
    (h : publishResolved codec putResult a data = (resp, [.put key obj])) :
    obj = storedObject codec key data := by
  have hops : [StoreOp.put a (storedObject codec a data)] = [StoreOp.put key obj] := by
    rw [← publishResolved_ops codec putResult a data, h]
  simp only [List.cons.injEq, and_true] at hops
  injection hops with hk ho
  subst hk
  exact ho.symm

/-- C1: for every document published under an identifier, whether explicit or
derived from the body, a subsequent lookup of that identifier on a store
holding the published object returns a 200 whose body bytes equal the
originally published raw bytes, both when the encode succeeded (stored
compressed, decoded on read) and when it failed (stored raw, returned
as-is). -/
theorem C1_publish_then_lookup (codec : Codec)
    (hrt : ∀ b out, codec.encode b = .ok out → codec.decode out = .ok b)
    (parse : Bytes → Except String Csaf)
    (putResult : String → Object → Except String Unit)
    (params : PublishParams) (data : Bytes) (s : Store)
    (resp : HttpResponse) (key : String) (obj : Object)
    (hpub : publish_vex codec parse putResult params data = (resp, [.put key obj])) :
    fetch_object codec ((s.put key obj).get) key = ⟨200, .bytes data⟩ := by
  have hobj : obj = storedObject codec key data := by
    obtain ⟨adv⟩ := params
    cases adv with
    | some a => exact publishResolved_obj_eq codec putResult a data resp key obj hpub
    | none =>
      cases hp : parse data with
      | ok c =>
        refine publishResolved_obj_eq codec putResult c.document.tracking.id data
          resp key obj ?_
        rw [← hpub]
        simp [publish_vex, hp]
      | error e => simp [publish_vex, hp] at hpub
  exact fetch_storedObject codec hrt ((s.put key obj).get) key key data
    (by rw [Store.get_put, hobj])

/-- Witness for C1: the concrete payload with byte values 1, 1 published
under the explicit identifier ADV-1 into the empty store is fetched back
verbatim. -/
theorem C1_publish_then_lookup_witness :
    fetch_object zstdCodec ((Store.put (fun _ => none) "ADV-1"
        (storedObject zstdCodec "ADV-1" [1, 1])).get) "ADV-1"
      = ⟨200, Body.bytes [1, 1]⟩ :=
  C1_publish_then_lookup zstdCodec zstdCodec_roundtrip (fun _ => Except.error "bad")
    (fun _ _ => Except.ok ()) ⟨some "ADV-1"⟩ [1, 1] (fun _ => none)
    ⟨201, Body.text "VEX of size 3 stored successfully"⟩ "ADV-1"
    (storedObject zstdCodec "ADV-1" [1, 1]) (by rfl)

/-- C2: the compressed flag always agrees with the encoding of the stored
bytes. The object built by publish has the flag set exactly when its bytes
are the encode output, and carries the raw bytes with the flag clear exactly
when the encode failed; on lookup an object with the flag clear is returned
as-is with the decode never consulted (the response does not depend on the
decode half of the codec), and an object with the flag set is always passed
through the decode, whose output alone determines the body. -/
theorem C2_flag_agreement (codec : Codec) (advisory : String) (data : Bytes) :
    ((storedObject codec advisory data).compressed = true →
      codec.encode data = .ok (storedObject codec advisory data).data)
    ∧ ((storedObject codec advisory data).compressed = false →
      (storedObject codec advisory data).data = data
        ∧ ∃ e, codec.encode data = .error e)
    ∧ (∀ c1 c2 : Codec, ∀ storage : String → Except String Object, ∀ key : String,
        ∀ o : Object, storage key = .ok o → o.compressed = false →
        fetch_object c1 storage key = fetch_object c2 storage key
          ∧ fetch_object c1 storage key = ⟨200, .bytes o.data⟩)
    ∧ (∀ c1 : Codec, ∀ storage : String → Except String Object, ∀ key : String,
        ∀ o : Object, storage key = .ok o → o.compressed = true →
        (∀ out, c1.decode o.data = .ok out →
          fetch_object c1 storage key = ⟨200, .bytes out⟩)
        ∧ (∀ e, c1.decode o.data = .error e →
          fetch_object c1 storage key = ⟨500, .text "Unable to decode object"⟩)) := by
  refine ⟨?_, ?_, ?_, ?_⟩
  · intro hc
    cases h : codec.encode data with
    | ok out => simp [storedObject, Object.new, storedPair_ok codec data out h]
    | error e => simp [storedObject, Object.new, storedPair_error codec data e h] at hc
  · intro hc
    cases h : codec.encode data with
    | ok out => simp [storedObject, Object.new, storedPair_ok codec data out h] at hc
    | error e =>
      exact ⟨by simp [storedObject, Object.new, storedPair_error codec data e h], e, rfl⟩
  · intro c1 c2 storage key o hget ho
    constructor <;> simp [fetch_object, hget, ho]
  · intro c1 storage key o hget ho
    constructor
    · intro out hdec
      simp [fetch_object, hget, ho, hdec]
    · intro e hdec
      simp [fetch_object, hget, ho, hdec]

/-- Witness for C2 at concrete inputs: the published object for bytes 1, 1 is
flagged compressed and its bytes are the encode output; an uncompressed
stored object is returned as-is; a compressed stored object is decoded on
read; and a compressed object with a corrupt frame yields the decode-failure
response. -/
theorem C2_flag_agreement_witness :
    zstdCodec.encode [1, 1] = .ok (storedObject zstdCodec "A" [1, 1]).data
    ∧ fetch_object zstdCodec (fun _ => Except.ok ⟨"A", [], [7], false⟩) "A"
        = ⟨200, Body.bytes [7]⟩
    ∧ fetch_object zstdCodec (fun _ => Except.ok ⟨"A", [], [3, 2, 1], true⟩) "A"
        = ⟨200, Body.bytes [1, 1]⟩
    ∧ fetch_object zstdCodec (fun _ => Except.ok ⟨"A", [], [], true⟩) "A"
        = ⟨500, Body.text "Unable to decode object"⟩ := by
  refine ⟨(C2_flag_agreement zstdCodec "A" [1, 1]).1 rfl,
    ((C2_flag_agreement zstdCodec "A" [1, 1]).2.2.1 zstdCodec zstdCodec
      (fun _ => Except.ok ⟨"A", [], [7], false⟩) "A" ⟨"A", [], [7], false⟩ rfl rfl).2,
    ((C2_flag_agreement zstdCodec "A" [1, 1]).2.2.2 zstdCodec
      (fun _ => Except.ok ⟨"A", [], [3, 2, 1], true⟩) "A" ⟨"A", [], [3, 2, 1], true⟩
      rfl rfl).1 [1, 1] rfl,
    ((C2_flag_agreement zstdCodec "A" [1, 1]).2.2.2 zstdCodec
      (fun _ => Except.ok ⟨"A", [], [], true⟩) "A" ⟨"A", [], [], true⟩
      rfl rfl).2 "unknown frame descriptor" rfl⟩

/-- C3: once the identifier is resolved, an encode success stores the encoded
bytes flagged compressed, while an encode failure stores the original raw
bytes flagged uncompressed and the publish still issues its store call and
succeeds with 201 when the put succeeds — an encode failure never fails the
publish. -/
theorem C3_encode_failure_fallback (codec : Codec)
    (putResult : String → Object → Except String Unit)
    (advisory : String) (data : Bytes) :
    (∀ out, codec.encode data = .ok out →
      (publishResolved codec putResult advisory data).2
        = [.put advisory (Object.new advisory [] out true)])
    ∧ (∀ e, codec.encode data = .error e →
      (publishResolved codec putResult advisory data).2
        = [.put advisory (Object.new advisory [] data false)]
      ∧ (∀ u, putResult advisory (Object.new advisory [] data false) = .ok u →
          (publishResolved codec putResult advisory data).1.status = 201)) := by
  constructor
  · intro out h
    rw [publishResolved_ops]
    simp [storedObject, storedPair_ok codec data out h]
  · intro e h
    have hso : storedObject codec advisory data = Object.new advisory [] data false := by
      simp [storedObject, storedPair_error codec data e h]
    refine ⟨by rw [publishResolved_ops, hso], ?_⟩
    intro u hput
    simp [publishResolved, hso, hput]

/-- Witness for C3: the model codec stores bytes 1, 1 encoded and flagged
compressed, while a codec whose encode always fails falls back to the raw
bytes flagged uncompressed and the publish still returns 201. -/
theorem C3_encode_failure_fallback_witness :
    (publishResolved zstdCodec (fun _ _ => Except.ok ()) "A" [1, 1]).2
      = [StoreOp.put "A" (Object.new "A" [] [3, 2, 1] true)]
    ∧ (publishResolved (Codec.mk (fun _ => Except.error "enc") (fun _ => Except.error "dec"))
        (fun _ _ => Except.ok ()) "A" [1, 1]).2
      = [StoreOp.put "A" (Object.new "A" [] [1, 1] false)]
    ∧ (publishResolved (Codec.mk (fun _ => Except.error "enc") (fun _ => Except.error "dec"))
        (fun _ _ => Except.ok ()) "A" [1, 1]).1.status = 201 :=
  ⟨(C3_encode_failure_fallback zstdCodec (fun _ _ => Except.ok ()) "A" [1, 1]).1
      [3, 2, 1] rfl,
    ((C3_encode_failure_fallback
        (Codec.mk (fun _ => Except.error "enc") (fun _ => Except.error "dec"))
        (fun _ _ => Except.ok ()) "A" [1, 1]).2 "enc" rfl).1,
    ((C3_encode_failure_fallback
        (Codec.mk (fun _ => Except.error "enc") (fun _ => Except.error "dec"))
        (fun _ _ => Except.ok ()) "A" [1, 1]).2 "enc" rfl).2 () rfl⟩

/-- C4: publish resolves the identifier by the exact policy of the source: an
explicit identifier parameter is used verbatim as the storage key and the
body is never parsed (the outcome does not depend on the parse function);
without it the parsed tracking identifier of the body is the key; and when
that parse fails the request is rejected with a 400 and no store call is
issued. -/
theorem C4_identifier_resolution (codec : Codec)
    (parse parseAlt : Bytes → Except String Csaf)
    (putResult : String → Object → Except String Unit) (data : Bytes) :
    (∀ a, publish_vex codec parse putResult ⟨some a⟩ data
        = publish_vex codec parseAlt putResult ⟨some a⟩ data)
    ∧ (∀ a, (publish_vex codec parse putResult ⟨some a⟩ data).2
        = [.put a (storedObject codec a data)])
    ∧ (∀ c, parse data = .ok c →
        (publish_vex codec parse putResult ⟨none⟩ data).2
          = [.put c.document.tracking.id
              (storedObject codec c.document.tracking.id data)])
    ∧ (∀ e, parse data = .error e →
        publish_vex codec parse putResult ⟨none⟩ data = (⟨400, .empty⟩, [])) := by
  refine ⟨fun a => rfl, fun a => publishResolved_ops codec putResult a data, ?_, ?_⟩
  · intro c hp
    have hred : publish_vex codec parse putResult ⟨none⟩ data
        = publishResolved codec putResult c.document.tracking.id data := by
      simp [publish_vex, hp]
    rw [hred, publishResolved_ops]
  · intro e hp
    simp [publish_vex, hp]

/-- Witness for C4: with an explicit identifier the outcome is the same under
a failing parse and a parse returning the tracking id Y; without one the
object is stored under Y; and with a failing parse and no explicit identifier
the request yields a bare 400 and no store call. -/
theorem C4_identifier_resolution_witness :
    publish_vex zstdCodec (fun _ => Except.error "bad") (fun _ _ => Except.ok ())
        ⟨some "X"⟩ [2]
      = publish_vex zstdCodec (fun _ => Except.ok ⟨⟨⟨"Y"⟩⟩⟩) (fun _ _ => Except.ok ())
        ⟨some "X"⟩ [2]
    ∧ (publish_vex zstdCodec (fun _ => Except.ok ⟨⟨⟨"Y"⟩⟩⟩) (fun _ _ => Except.ok ())
        ⟨none⟩ [2]).2
      = [StoreOp.put "Y" (storedObject zstdCodec "Y" [2])]
    ∧ publish_vex zstdCodec (fun _ => Except.error "bad") (fun _ _ => Except.ok ())
        ⟨none⟩ [2]
      = (⟨400, Body.empty⟩, []) :=
  ⟨(C4_identifier_resolution zstdCodec (fun _ => Except.error "bad")
      (fun _ => Except.ok ⟨⟨⟨"Y"⟩⟩⟩) (fun _ _ => Except.ok ()) [2]).1 "X",
    (C4_identifier_resolution zstdCodec (fun _ => Except.ok ⟨⟨⟨"Y"⟩⟩⟩)
      (fun _ => Except.ok ⟨⟨⟨"Y"⟩⟩⟩) (fun _ _ => Except.ok ()) [2]).2.2.1 ⟨⟨⟨"Y"⟩⟩⟩ rfl,
    (C4_identifier_resolution zstdCodec (fun _ => Except.error "bad")
      (fun _ => Except.error "bad") (fun _ _ => Except.ok ()) [2]).2.2.2 "bad" rfl⟩

/-- Counterexample to C6 as stated: the not-found rejection, a terminal error
of the taxonomy, is reported with status 404 and an entirely empty body — no
human-readable message accompanies it. -/
theorem C6_counterexample :
    (fetch_object zstdCodec (fun _ => Except.error "NoSuchKey") "ADV-1").status = 404
    ∧ (fetch_object zstdCodec (fun _ => Except.error "NoSuchKey") "ADV-1").body
      = Body.empty :=
  ⟨rfl, rfl⟩

/-- C6 amended: every terminal error carries a caller-visible status code;
the unsupported-CVE, missing-parameter, decode-failure and store-failure
responses additionally carry a short human-readable message in the body,
while the not-found and malformed-input rejections return an empty body. -/
theorem C6_error_reporting :
    (∀ (codec : Codec) (storage : String → Except String Object) (key e : String),
      storage key = Except.error e →
      fetch_object codec storage key = ⟨404, Body.empty⟩)
    ∧ (∀ (codec : Codec) (storage : String → Except String Object) (cve : String),
        query_vex codec storage ⟨some cve, none⟩
          = ⟨400, Body.text "CVE lookup is not yet supported"⟩)
    ∧ (∀ (codec : Codec) (storage : String → Except String Object),
        query_vex codec storage ⟨none, none⟩
          = ⟨400, Body.text "Missing valid advisory or CVE"⟩)
    ∧ (∀ (codec : Codec) (storage : String → Except String Object) (key : String)
        (o : Object) (e : String), storage key = Except.ok o → o.compressed = true →
        codec.decode o.data = Except.error e →
        fetch_object codec storage key = ⟨500, Body.text "Unable to decode object"⟩)
    ∧ (∀ (codec : Codec) (putResult : String → Object → Except String Unit)
        (advisory : String) (data : Bytes) (e : String),
        putResult advisory (storedObject codec advisory data) = Except.error e →
        (publishResolved codec putResult advisory data).1
          = ⟨500, Body.text ("Error storing VEX: " ++ e)⟩)
    ∧ (∀ (codec : Codec) (parse : Bytes → Except String Csaf)
        (putResult : String → Object → Except String Unit) (data : Bytes) (e : String),
        parse data = Except.error e →
        publish_vex codec parse putResult ⟨none⟩ data = (⟨400, Body.empty⟩, [])) := by
  refine ⟨?_, fun codec storage cve => rfl, fun codec storage => rfl, ?_, ?_, ?_⟩
  · intro codec storage key e h
    simp [fetch_object, h]
  · intro codec storage key o e hget hc hdec
    simp [fetch_object, hget, hc, hdec]
  · intro codec putResult advisory data e hput
    simp [publishResolved, hput]
  · intro codec parse putResult data e hp
    simp [publish_vex, hp]

/-- Witness for the amended C6 at concrete inputs, one per error kind with a
hypothesis: a failed get, a corrupt compressed object, a failed put, and an
unparseable body without an explicit identifier. -/
theorem C6_error_reporting_witness :
    fetch_object zstdCodec (fun _ => Except.error "boom") "K" = ⟨404, Body.empty⟩
    ∧ fetch_object zstdCodec (fun _ => Except.ok ⟨"K", [], [], true⟩) "K"
        = ⟨500, Body.text "Unable to decode object"⟩
    ∧ (publishResolved zstdCodec (fun _ _ => Except.error "disk full") "K" [2]).1
        = ⟨500, Body.text ("Error storing VEX: " ++ "disk full")⟩
    ∧ publish_vex zstdCodec (fun _ => Except.error "bad json")
        (fun _ _ => Except.ok ()) ⟨none⟩ [2]
        = (⟨400, Body.empty⟩, []) :=
  ⟨C6_error_reporting.1 zstdCodec (fun _ => Except.error "boom") "K" "boom" rfl,
    C6_error_reporting.2.2.2.1 zstdCodec (fun _ => Except.ok ⟨"K", [], [], true⟩) "K"
      ⟨"K", [], [], true⟩ "unknown frame descriptor" rfl rfl rfl,
    C6_error_reporting.2.2.2.2.1 zstdCodec (fun _ _ => Except.error "disk full")
      "K" [2] "disk full" rfl,
    C6_error_reporting.2.2.2.2.2 zstdCodec (fun _ => Except.error "bad json")
      (fun _ _ => Except.ok ()) [2] "bad json" rfl⟩

/-- C7: on a successful publish the response is a 201 whose confirmation message
contains the byte length of the bytes as persisted, which is the encoded
length when the encode succeeded and the raw length when it failed. -/
theorem C7_created_reports_persisted_length (codec : Codec)
    (putResult : String → Object → Except String Unit) (advisory : String)
    (data : Bytes) (u : Unit)
    (hput : putResult advisory (storedObject codec advisory data) = .ok u) :
    (publishResolved codec putResult advisory data).1
      = ⟨201, .text ("VEX of size "
          ++ toString (storedObject codec advisory data).data.length
          ++ " stored successfully")⟩
    ∧ (∀ out, codec.encode data = .ok out →
        (storedObject codec advisory data).data.length = out.length)
    ∧ (∀ e, codec.encode data = .error e →
        (storedObject codec advisory data).data.length = data.length) := by
  refine ⟨by simp [publishResolved, hput], ?_, ?_⟩
  · intro out h
    simp [storedObject, Object.new, storedPair_ok codec data out h]
  · intro e h
    simp [storedObject, Object.new, storedPair_error codec data e h]

/-- Witness for C7: publishing bytes 1, 1 with a succeeding put yields the
201 confirmation, and the reported persisted length is the encoded length
3. -/
theorem C7_created_reports_persisted_length_witness :
    (publishResolved zstdCodec (fun _ _ => Except.ok ()) "ADV-1" [1, 1]).1
      = ⟨201, Body.text ("VEX of size "
          ++ toString (storedObject zstdCodec "ADV-1" [1, 1]).data.length
          ++ " stored successfully")⟩
    ∧ (storedObject zstdCodec "ADV-1" [1, 1]).data.length = ([3, 2, 1] : Bytes).length :=
  ⟨(C7_created_reports_persisted_length zstdCodec (fun _ _ => Except.ok ())
      "ADV-1" [1, 1] () rfl).1,
    (C7_created_reports_persisted_length zstdCodec (fun _ _ => Except.ok ())
      "ADV-1" [1, 1] () rfl).2.1 [3, 2, 1] rfl⟩

end Trustification
